import Mathlib

/-!
Shallow embedding of the birth-certificate fee-waiver webhook agent
(`src/webhook_agent.py` and `src/conversational_agent.py`).

Modelling conventions:
* A Python string value is a Lean `String`; an absent dictionary key (or a
  key whose value is Python `None`) is `Option.none`.  Python truthiness of
  an optional string value (`if x:`) is `pyTruthy`: present and non-empty.
* `a or b` on optional string values is `pyOr`.
* `str(x).strip()` for a string `x` is `pyStrip`.
* HTTP transport (the `requests.post` call) is abstracted as an
  `HttpResult` input: either a response with status code and body text, or
  a caught `requests.exceptions.RequestException` carrying a message.
* The language-model call is abstracted as an input describing what the
  surrounding parsing code recovered from it.
* Confidence scores (Python floats in [0,1]) are modelled as rationals.
-/

namespace FeeWaiver

/-- Python truthiness of an optional string value: the key is present and
the string is non-empty. -/
def pyTruthy : Option String → Bool
  | none => false
  | some s => s ≠ ""

/-- Python `a or b` for optional string values: `b` when `a` is falsy. -/
def pyOr (a b : Option String) : Option String :=
  if pyTruthy a then a else b

/-- The whitespace characters Python's `str.strip()` removes (ASCII ones;
the form-data values in play are ASCII). -/
def isPySpace (c : Char) : Bool :=
  c = ' ' ∨ c = '\t' ∨ c = '\n' ∨ c = '\r' ∨ c = '\u000B' ∨ c = '\u000C'

/-- Python `str.strip()`: drop leading and trailing whitespace. -/
def pyStrip (s : String) : String :=
  ⟨((s.data.dropWhile isPySpace).reverse.dropWhile isPySpace).reverse⟩

/-- The raw extracted mapping handed to `WebhookAgent._validate_form_data`:
the current field names plus the legacy aliases the validator consults. -/
structure FormData where
  adult_name : Option String := none
  name_of_requestor : Option String := none
  email_address : Option String := none
  signup_type : Option String := none
  request_on_behalf : Option String := none
  child_name : Option String := none
  name_of_child : Option String := none
deriving DecidableEq, Repr

/-- The field part of a successful validation result: the keys the code
adds to the result dict besides `valid`/`error` (`child_name` may be the
Python value `None`). -/
structure ValidRecord where
  adult_name : String
  email_address : String
  signup_type : String
  child_name : Option String
deriving DecidableEq, Repr

/-- Result of `_validate_form_data`: either `{"valid": False, "error": e}`
or `{"valid": True, "error": None}` updated with the validated fields. -/
inductive ValidationResult where
  | invalid (error : String)
  | valid (record : ValidRecord)
deriving DecidableEq, Repr

/-- The dict view of a successful validation's field entries, in the
insertion order of `_validate_form_data` (`child_name` present with value
`None` when the signup is not for a child). -/
def ValidRecord.toPairs (r : ValidRecord) : List (String × Option String) :=
  [("adult_name", some r.adult_name), ("email_address", some r.email_address),
   ("signup_type", some r.signup_type), ("child_name", r.child_name)]

/-- The `signup_type` value `_validate_form_data` works with: the field
itself when truthy, else the conversion of a present legacy
`request_on_behalf` (`"y"` ↦ `"child"`, anything else ↦ `"self"`). -/
def effectiveSignupType (fd : FormData) : Option String :=
  if pyTruthy fd.signup_type then fd.signup_type
  else
    match fd.request_on_behalf with
    | some v => some (if v = "y" then "child" else "self")
    | none => fd.signup_type

/-- `WebhookAgent._validate_form_data` (src/webhook_agent.py:135-185). -/
def validateFormData (fd : FormData) : ValidationResult :=
  if pyTruthy (pyOr fd.adult_name fd.name_of_requestor) then
    if pyTruthy fd.email_address then
      if effectiveSignupType fd = some "self" ∨ effectiveSignupType fd = some "child" then
        if (effectiveSignupType fd).getD "" = "child" then
          if pyTruthy (pyOr fd.child_name fd.name_of_child) then
            .valid { adult_name := pyStrip ((pyOr fd.adult_name fd.name_of_requestor).getD ""),
                     email_address := pyStrip (fd.email_address.getD ""),
                     signup_type := (effectiveSignupType fd).getD "",
                     child_name := some (pyStrip ((pyOr fd.child_name fd.name_of_child).getD "")) }
          else .invalid "Child name is required when signup type is 'child'"
        else
          .valid { adult_name := pyStrip ((pyOr fd.adult_name fd.name_of_requestor).getD ""),
                   email_address := pyStrip (fd.email_address.getD ""),
                   signup_type := (effectiveSignupType fd).getD "",
                   child_name := none }
      else .invalid "Signup type must be 'self' or 'child'"
    else .invalid "Email address is required"
  else .invalid "Adult name is required"

/-! Satisfaction of the required fields, in the schema's declaration
order, used to state the failure-ordering property. -/

/-- The `adult_name` requirement is met: the field (or its legacy alias)
holds a truthy value. -/
def adultSatisfied (fd : FormData) : Bool :=
  pyTruthy (pyOr fd.adult_name fd.name_of_requestor)

/-- The `email_address` requirement is met. -/
def emailSatisfied (fd : FormData) : Bool :=
  pyTruthy fd.email_address

/-- The `signup_type` requirement is met: it resolves (possibly via the
legacy alias) to one of the accepted options. -/
def signupSatisfied (fd : FormData) : Bool :=
  effectiveSignupType fd = some "self" ∨ effectiveSignupType fd = some "child"

/-- The `child_name` requirement is met: it is only required when the
resolved signup type is `"child"`, in which case the field (or its legacy
alias) must hold a truthy value. -/
def childSatisfied (fd : FormData) : Bool :=
  ¬ (effectiveSignupType fd).getD "" = "child"
    ∨ pyTruthy (pyOr fd.child_name fd.name_of_child)

/-- The first required field, in schema declaration order
(`adult_name`, `email_address`, `signup_type`, `child_name`), whose
requirement the raw mapping does not satisfy. -/
def firstUnsatisfiedField (fd : FormData) : Option String :=
  if ¬ adultSatisfied fd then some "adult_name"
  else if ¬ emailSatisfied fd then some "email_address"
  else if ¬ signupSatisfied fd then some "signup_type"
  else if ¬ childSatisfied fd then some "child_name"
  else none

/-- The form field named by each of the validator's failure reasons. -/
def fieldNamedByError (e : String) : Option String :=
  if e = "Adult name is required" then some "adult_name"
  else if e = "Email address is required" then some "email_address"
  else if e = "Signup type must be 'self' or 'child'" then some "signup_type"
  else if e = "Child name is required when signup type is 'child'" then some "child_name"
  else none

/-- C2: a validation failure's reason names exactly the first unsatisfied
required field in schema declaration order, and validation succeeds only
when every required field is satisfied (never a partially-populated
success). -/
theorem validator_failure_names_first_unsatisfied_field (fd : FormData) :
    (∀ e, validateFormData fd = .invalid e →
        fieldNamedByError e = firstUnsatisfiedField fd ∧ (firstUnsatisfiedField fd).isSome = true)
    ∧ (∀ r, validateFormData fd = .valid r → firstUnsatisfiedField fd = none) := by
  unfold validateFormData firstUnsatisfiedField adultSatisfied emailSatisfied
    signupSatisfied childSatisfied
  split_ifs <;> simp_all [fieldNamedByError]

/-- C2 witness: a mapping supplying only the adult name fails naming
`email_address`, the first unsatisfied required field. -/
theorem validator_failure_names_first_unsatisfied_field_witness :
    fieldNamedByError "Email address is required" =
        firstUnsatisfiedField { adult_name := some "Ann" }
      ∧ (firstUnsatisfiedField { adult_name := some "Ann" }).isSome = true :=
  (validator_failure_names_first_unsatisfied_field { adult_name := some "Ann" }).1
    "Email address is required" (by decide)

/-- C4: when `signup_type` resolves to `"child"` (and the earlier checks
pass), an absent `child_name` fails validation; when it resolves to
`"self"`, the output record carries `child_name` with value null — the key
is present in the result dict with value `None`, never omitted — even when
the raw input supplied a `child_name`. -/
theorem conditional_child_name_rule (fd : FormData)
    (ha : adultSatisfied fd = true) (he : emailSatisfied fd = true) :
    (effectiveSignupType fd = some "child" →
        pyTruthy (pyOr fd.child_name fd.name_of_child) = false →
        validateFormData fd = .invalid "Child name is required when signup type is 'child'")
    ∧ (effectiveSignupType fd = some "self" →
        validateFormData fd =
            .valid { adult_name := pyStrip ((pyOr fd.adult_name fd.name_of_requestor).getD ""),
                     email_address := pyStrip (fd.email_address.getD ""),
                     signup_type := "self", child_name := none }
          ∧ ∀ r, validateFormData fd = .valid r →
              r.toPairs.lookup "child_name" = some none) := by
  unfold validateFormData adultSatisfied emailSatisfied at *
  constructor
  · intro hst hchild
    rw [hst] at *
    simp_all
  · intro hst
    rw [hst] at *
    simp_all [ValidRecord.toPairs, List.lookup]

/-- C4 witness: with adult name, email and `signup_type = "self"` present
and a `child_name` supplied anyway, the output has `child_name` null. -/
theorem conditional_child_name_rule_witness :
    validateFormData { adult_name := some "Ann", email_address := some "a@x.org",
                       signup_type := some "self", child_name := some "Kid" } =
        .valid { adult_name := "Ann", email_address := "a@x.org",
                 signup_type := "self", child_name := none }
      ∧ ∀ r, validateFormData { adult_name := some "Ann", email_address := some "a@x.org",
                                 signup_type := some "self", child_name := some "Kid" } = .valid r →
          r.toPairs.lookup "child_name" = some none := by
  have h := (conditional_child_name_rule
      { adult_name := some "Ann", email_address := some "a@x.org",
        signup_type := some "self", child_name := some "Kid" }
      (by decide) (by decide)).2 (by decide)
  refine ⟨?_, h.2⟩
  rw [h.1]
  decide

/-- C6: a mapping written with the legacy field names and the
corresponding mapping written with the current field names (with
`request_on_behalf = "y"` rendered as `signup_type = "child"` and
`"n"` as `"self"`) validate to identical results. -/
theorem alias_equivalence (a em c : Option String) (b : String)
    (hb : b = "y" ∨ b = "n") :
    validateFormData { name_of_requestor := a, email_address := em,
                       request_on_behalf := some b, name_of_child := c } =
    validateFormData { adult_name := a, email_address := em,
                       signup_type := some (if b = "y" then "child" else "self"),
                       child_name := c } := by
  have hconv : (if b = "y" then "child" else "self") ≠ "" := by
    split_ifs <;> simp
  unfold validateFormData effectiveSignupType pyOr pyTruthy
  rcases a with _ | av <;> rcases c with _ | cv <;>
    simp_all <;> split_ifs <;> simp_all

/-- C6 witness: a fully legacy on-behalf mapping and its current-name
rendering validate identically. -/
theorem alias_equivalence_witness :
    validateFormData { name_of_requestor := some "John Smith", email_address := some "j@x.org",
                       request_on_behalf := some "y", name_of_child := some "Sarah Smith" } =
    validateFormData { adult_name := some "John Smith", email_address := some "j@x.org",
                       signup_type := some (if "y" = "y" then "child" else "self"),
                       child_name := some "Sarah Smith" } :=
  alias_equivalence (some "John Smith") (some "j@x.org") (some "Sarah Smith") "y" (Or.inl rfl)

/-- C7 counterexample: an `adult_name` consisting only of whitespace is
accepted by the validator (it is truthy, so it is stripped to the empty
string and the mapping validates), contradicting the claim that a
required free-text field that is empty after stripping is rejected. -/
theorem whitespace_only_adult_name_accepted :
    validateFormData { adult_name := some "   ", email_address := some "a@x.org",
                       signup_type := some "self" } =
        .valid { adult_name := "", email_address := "a@x.org",
                 signup_type := "self", child_name := none }
      ∧ ∀ e, validateFormData { adult_name := some "   ", email_address := some "a@x.org",
                                 signup_type := some "self" } ≠ .invalid e := by
  have hv : validateFormData { adult_name := some "   ", email_address := some "a@x.org",
                               signup_type := some "self" } =
      ValidationResult.valid { adult_name := "", email_address := "a@x.org",
                               signup_type := "self", child_name := none } := by decide
  refine ⟨hv, ?_⟩
  intro e h
  rw [hv] at h
  exact ValidationResult.noConfusion h

/-- C7 (amended): on success every free-text field is stripped of leading
and trailing whitespace; a required free-text field that is absent or
empty (Python-falsy) fails validation naming that field, but a
whitespace-only value is accepted and stripped to the empty string; the
legacy boolean-like `request_on_behalf` is consulted only when
`signup_type` is falsy and maps the exact string `"y"` to `"child"` and
every other value (including `"Y"`, `"yes"`, `"n"`, `"no"`) to `"self"`,
rejecting nothing on its own account. -/
theorem coercion_and_legacy_boolean_behavior (fd : FormData) :
    (∀ r, validateFormData fd = .valid r →
        r.adult_name = pyStrip ((pyOr fd.adult_name fd.name_of_requestor).getD "")
        ∧ r.email_address = pyStrip (fd.email_address.getD "")
        ∧ (r.signup_type = "child" →
            r.child_name = some (pyStrip ((pyOr fd.child_name fd.name_of_child).getD ""))))
    ∧ (pyTruthy (pyOr fd.adult_name fd.name_of_requestor) = false →
        validateFormData fd = .invalid "Adult name is required")
    ∧ (∀ b, pyTruthy fd.signup_type = false → fd.request_on_behalf = some b →
        effectiveSignupType fd = some (if b = "y" then "child" else "self")) := by
  refine ⟨?_, ?_, ?_⟩
  · intro r hr
    unfold validateFormData at hr
    split_ifs at hr <;> cases hr <;> simp_all
  · intro h
    unfold validateFormData
    simp [h]
  · intro b hst hb
    unfold effectiveSignupType
    rw [hst, hb]
    simp

/-- C7 witness: instantiating the amended statement at a mapping with
padded values, legacy `request_on_behalf = "yes"`, i.e. a value other
than `"y"`, resolving to `"self"`. -/
theorem coercion_and_legacy_boolean_behavior_witness :
    (ValidRecord.adult_name { adult_name := "Bo b", email_address := "a@x.org",
                              signup_type := "self", child_name := none } =
      pyStrip ((pyOr (some " Bo b ") none).getD ""))
    ∧ effectiveSignupType { adult_name := some " Bo b ", email_address := some " a@x.org ",
                            request_on_behalf := some "yes" } =
        some (if "yes" = "y" then "child" else "self") := by
  constructor
  · exact ((coercion_and_legacy_boolean_behavior
      { adult_name := some " Bo b ", email_address := some " a@x.org ",
        request_on_behalf := some "yes" }).1
      { adult_name := "Bo b", email_address := "a@x.org",
        signup_type := "self", child_name := none } (by decide)).1
  · exact (coercion_and_legacy_boolean_behavior
      { adult_name := some " Bo b ", email_address := some " a@x.org ",
        request_on_behalf := some "yes" }).2.2 "yes" (by decide) rfl

/-! The Submitter: `send_webhook` (src/webhook_agent.py:187-224 and the
identical src/conversational_agent.py:215-240).  The HTTP transport is
abstracted as an input. -/

/-- What the `requests.post` call produces: an HTTP response, or a
`requests.exceptions.RequestException` (DNS failure, connection refused,
timeout, ...) carrying its message. -/
inductive HttpResult where
  | response (status : Nat) (text : String)
  | transportError (msg : String)
deriving DecidableEq, Repr

/-- The dict `send_webhook` returns.  `none` fields model keys absent
from the corresponding Python dict (the response path has no `error` key;
the exception path has no `status_code`/`response_text` keys). -/
structure WebhookOutcome (α : Type) where
  success : Bool
  status_code : Option Nat := none
  response_text : Option String := none
  error : Option String := none
  sent_data : α
deriving DecidableEq, Repr

/-- `send_webhook`: POST the payload; success is strictly status 200; a
transport exception is caught and reported, never re-raised. -/
def send_webhook {α : Type} (post : HttpResult) (form_data : α) : WebhookOutcome α :=
  match post with
  | .response status text =>
      { success := status = 200, status_code := some status,
        response_text := some text, sent_data := form_data }
  | .transportError msg =>
      { success := false, error := some msg, sent_data := form_data }

/-- C5: `send_webhook` reports success exactly for HTTP 200, preserves
the status code and body on any response, preserves the error text on any
transport failure, and always carries the exact payload that was sent;
being a total function of the transport outcome, no exception escapes. -/
theorem submission_outcome_mapping {α : Type} (post : HttpResult) (d : α) :
    ((send_webhook post d).sent_data = d)
    ∧ (∀ status text, post = .response status text →
        ((send_webhook post d).success = true ↔ status = 200)
        ∧ (send_webhook post d).status_code = some status
        ∧ (send_webhook post d).response_text = some text
        ∧ (send_webhook post d).error = none)
    ∧ (∀ msg, post = .transportError msg →
        (send_webhook post d).success = false
        ∧ (send_webhook post d).error = some msg
        ∧ (send_webhook post d).status_code = none) := by
  refine ⟨?_, ?_, ?_⟩
  · cases post <;> rfl
  · rintro status text rfl
    simp [send_webhook]
  · rintro msg rfl
    simp [send_webhook]

/-- C5 witness: a 404 response is a non-success outcome with the code,
body and payload preserved. -/
theorem submission_outcome_mapping_witness :
    ((send_webhook (α := List (String × Option String)) (.response 404 "not found")
        [("adult_name", some "Ann")]).success = true ↔ (404 : Nat) = 200)
    ∧ (send_webhook (α := List (String × Option String)) (.response 404 "not found")
        [("adult_name", some "Ann")]).status_code = some 404
    ∧ (send_webhook (α := List (String × Option String)) (.response 404 "not found")
        [("adult_name", some "Ann")]).response_text = some "not found"
    ∧ (send_webhook (α := List (String × Option String)) (.response 404 "not found")
        [("adult_name", some "Ann")]).error = none :=
  (submission_outcome_mapping (.response 404 "not found") [("adult_name", some "Ann")]).2.1
    404 "not found" rfl

/-! The Single-Shot Pipeline: `collect_form_data` + `process_user_input`
(src/webhook_agent.py:25-99 and 226-264). -/

/-- What `collect_form_data`'s surrounding code recovers from the
language-model call: the call raised (the `except` path, which returns
`{}`), or a raw form-data mapping was parsed from the response text. -/
inductive LLMExtraction where
  | callFailed
  | parsed (fd : FormData)
deriving DecidableEq, Repr

/-- `collect_form_data` returns `{}` when the model call raises, and
otherwise the result of `_validate_form_data` applied to the parsed
mapping (note: the *validation result dict*, not the raw mapping).
`none` models the empty dict. -/
def collect_form_data (ext : LLMExtraction) : Option ValidationResult :=
  match ext with
  | .callFailed => none
  | .parsed fd => some (validateFormData fd)

/-- The form-data view of a validation-result dict, as seen by a second
`_validate_form_data` pass in `process_user_input`: a failure dict has
none of the form fields; a success dict has exactly the validated fields
(the `valid`/`error` keys are ignored by the validator). -/
def ValidationResult.asFormData : ValidationResult → FormData
  | .invalid _ => {}
  | .valid r => { adult_name := some r.adult_name, email_address := some r.email_address,
                  signup_type := some r.signup_type, child_name := r.child_name }

/-- The dict `process_user_input` returns; `none` models absent keys. -/
structure PipelineResult where
  success : Bool
  error : Option String := none
  extracted_data : Option ValidationResult := none
  form_data : Option ValidRecord := none
  webhook_result : Option (WebhookOutcome ValidRecord) := none
deriving DecidableEq, Repr

/-- `WebhookAgent.process_user_input`: extract once, re-validate, and
submit once on success. -/
def process_user_input (ext : LLMExtraction) (post : HttpResult) : PipelineResult :=
  match collect_form_data ext with
  | none =>
      { success := false, error := some "Failed to extract form data from user input" }
  | some vres =>
      match validateFormData vres.asFormData with
      | .invalid e =>
          { success := false, error := some e, extracted_data := some vres }
      | .valid r =>
          { success := (send_webhook post r).success, form_data := some r,
            webhook_result := some (send_webhook post r) }

/-- C8 counterexample: when extraction is empty the pipeline's error is
the literal string "Failed to extract form data from user input", not
"no data extracted" as the claim states. -/
theorem empty_extraction_error_message :
    (process_user_input .callFailed (.response 200 "ok")).error =
        some "Failed to extract form data from user input"
      ∧ (process_user_input .callFailed (.response 200 "ok")).error ≠
        some "no data extracted" := by
  constructor
  · rfl
  · decide

/-- C8 (amended): the pipeline runs one extraction attempt; if it yields
the empty dict the pipeline fails with the error "Failed to extract form
data from user input" and no submission is attempted; if the extracted
dict fails validation the pipeline fails with the validator's reason,
attaches the extracted fields, and attempts no submission; otherwise it
submits exactly once and reports success exactly when the submission
succeeded, attaching both the validated record and the full webhook
outcome. -/
theorem pipeline_sequence (ext : LLMExtraction) (post : HttpResult) :
    (collect_form_data ext = none →
        process_user_input ext post =
          { success := false, error := some "Failed to extract form data from user input" })
    ∧ (∀ vres e, collect_form_data ext = some vres →
        validateFormData vres.asFormData = .invalid e →
        process_user_input ext post =
          { success := false, error := some e, extracted_data := some vres })
    ∧ (∀ vres r, collect_form_data ext = some vres →
        validateFormData vres.asFormData = .valid r →
        process_user_input ext post =
          { success := (send_webhook post r).success, form_data := some r,
            webhook_result := some (send_webhook post r) }) := by
  refine ⟨?_, ?_, ?_⟩
  · intro h
    unfold process_user_input
    rw [h]
  · intro vres e h1 h2
    unfold process_user_input
    rw [h1]
    simp only [h2]
  · intro vres r h1 h2
    unfold process_user_input
    rw [h1]
    simp only [h2]

/-- C8 witness: a complete extraction is validated, submitted once, and
the pipeline reports the webhook's non-success (HTTP 500) with record and
outcome attached. -/
theorem pipeline_sequence_witness :
    process_user_input (.parsed { adult_name := some "Ann", email_address := some "a@x.org",
                                  signup_type := some "self" }) (.response 500 "boom") =
      { success := (send_webhook (.response 500 "boom")
            (ValidRecord.mk "Ann" "a@x.org" "self" none)).success,
        form_data := some (ValidRecord.mk "Ann" "a@x.org" "self" none),
        webhook_result := some (send_webhook (.response 500 "boom")
            (ValidRecord.mk "Ann" "a@x.org" "self" none)) } :=
  (pipeline_sequence (.parsed { adult_name := some "Ann", email_address := some "a@x.org",
                                signup_type := some "self" }) (.response 500 "boom")).2.2
    (validateFormData { adult_name := some "Ann", email_address := some "a@x.org",
                        signup_type := some "self" })
    (ValidRecord.mk "Ann" "a@x.org" "self" none) rfl (by decide)

/-! The Conversation Engine: `ConversationalAgent`
(src/conversational_agent.py).  The language-model call
(`extract_information`) is abstracted as the `ExtractedInfo` input of a
turn; `time.time()` values are timestamp inputs. -/

/-- A Python dict with string values, as an ordered association list.
Dicts produced by the code have unique keys (insertion order is kept). -/
abbrev Dict := List (String × String)

/-- Python `m[k] = v`: overwrite in place when the key exists, else
append at the end. -/
def dictInsert (m : Dict) (k v : String) : Dict :=
  if m.any (fun p => decide (p.1 = k)) then
    m.map (fun p => if p.1 = k then (k, v) else p)
  else m ++ [(k, v)]

/-- Python `m.update(news)`: assign each entry of `news` in order. -/
def dictUpdate (m news : Dict) : Dict :=
  news.foldl (fun acc p => dictInsert acc p.1 p.2) m

/-- The field names of `ConversationalAgent.required_fields`, in
declaration order. -/
def requiredFieldNames : List String :=
  ["adult_name", "email_address", "signup_type", "child_name"]

/-- The `conditional` entry of a field's spec:
`{"field": dependency, "value": trigger}` — only `child_name` has one. -/
def fieldConditional : String → Option (String × String)
  | "child_name" => some ("signup_type", "child")
  | _ => none

/-- The `description` entry of each field's spec. -/
def fieldDescription : String → String
  | "adult_name" => "Name of the adult making the request"
  | "email_address" => "Email address of the adult"
  | "signup_type" => "Whether signing up for themselves or their child"
  | "child_name" => "Name of the child (only if signup_type is 'child')"
  | _ => ""

/-- The `question` entry of each field's spec. -/
def fieldQuestion : String → String
  | "adult_name" => "What is your full name?"
  | "email_address" => "What is your email address?"
  | "signup_type" => "Are you signing up for yourself or for your child?"
  | "child_name" => "What is your child's full name?"
  | _ => ""

/-- Whether the field's spec has `"type": "choice"`. -/
def fieldIsChoice : String → Bool
  | "signup_type" => true
  | _ => false

/-- The `options` entry of a choice field's spec. -/
def fieldOptions : String → List String
  | "signup_type" => ["self", "child"]
  | _ => []

/-- One entry of a session's `conversation_history`: tagged user/agent,
with text and a `time.time()` timestamp. -/
structure HistoryEntry where
  tag : String
  message : String
  timestamp : ℚ
deriving DecidableEq, Repr

/-- One session's stored state; the defaults are exactly the dict
`create_session` installs. -/
structure SessionData where
  collected_data : Dict := []
  conversation_history : List HistoryEntry := []
  current_step : String := "greeting"
  missing_fields : List String := requiredFieldNames
deriving DecidableEq, Repr

/-- The session `create_session` creates. -/
def initialSession : SessionData := {}

/-- What `extract_information` returns for a turn: the model's extracted
field values and its per-field confidence scores. -/
structure ExtractedInfo where
  extracted_fields : List (String × String) := []
  confidence : List (String × ℚ) := []
deriving DecidableEq, Repr

/-- The confidence gate of `generate_response`: the field is one of the
schema's fields and `confidence_scores.get(field, 0) > 0.7` (the
threshold 0.7 is `mkRat 7 10`). -/
def gatePasses (confidence : List (String × ℚ)) (field : String) : Bool :=
  requiredFieldNames.contains field
    && decide ((confidence.lookup field).getD 0 > mkRat 7 10)

/-- The `new_data` dict of a turn: the extracted fields that pass the
confidence gate (in extraction order). -/
def newData (extracted_fields : List (String × String))
    (confidence : List (String × ℚ)) : Dict :=
  extracted_fields.filter (fun p => gatePasses confidence p.1)

/-- `missing_fields` after the merge loop removed every newly merged
field. -/
def removeMerged (missing_fields : List String) (nd : Dict) : List String :=
  missing_fields.filter (fun f => (nd.lookup f).isNone)

/-- The conditional-requirement filter on a still-missing field: keep it
when its dependency field currently holds the trigger value or is not yet
collected; drop it when the dependency is collected with another value;
unconditional fields are always kept. -/
def keepInMissing (collected : Dict) (f : String) : Bool :=
  match fieldConditional f with
  | some (df, dv) =>
      if collected.lookup df = some dv then true
      else if (collected.lookup df).isSome then false
      else true
  | none => true

/-- The acknowledgment prefix of a question response, naming the newly
merged fields. -/
def acknowledgmentText (nd : Dict) : String :=
  if nd.isEmpty then ""
  else "Great! I've noted: "
    ++ String.intercalate ", " (nd.map (fun p => fieldDescription p.1 ++ ": " ++ p.2))
    ++ ". "

/-- The question asked for the next outstanding field (choice fields get
their options appended). -/
def questionText (f : String) : String :=
  if fieldIsChoice f then
    fieldQuestion f ++ " (Please say " ++ String.intercalate " or " (fieldOptions f) ++ ")"
  else fieldQuestion f

/-- The response dict a turn produces; `none` models absent keys (a
completion response has no `missing_fields` key, a question response no
`webhook_result`). -/
structure AgentResponse where
  tag : String
  message : String
  asking_for : Option String := none
  data_collected : Option Dict := none
  missing_fields : Option (List String) := none
  webhook_result : Option (WebhookOutcome Dict) := none
  session_complete : Bool
  session_id : Option String := none
deriving DecidableEq, Repr

/-- `ConversationalAgent.generate_response`
(src/conversational_agent.py:132-213): merge the gated extractions,
recompute the outstanding fields under the conditional rules, and either
submit (completion) or ask the next question. -/
def generate_response (session_data : SessionData) (extracted_info : ExtractedInfo)
    (post : HttpResult) : AgentResponse :=
  let nd := newData extracted_info.extracted_fields extracted_info.confidence
  let missing1 := removeMerged session_data.missing_fields nd
  let collected1 := dictUpdate session_data.collected_data nd
  let missing2 := missing1.filter (keepInMissing collected1)
  if missing2.isEmpty then
    { tag := "completion",
      message := "Perfect! I have all the information needed. Let me submit your request now.",
      data_collected := some collected1,
      webhook_result := some (send_webhook post collected1),
      session_complete := true }
  else
    { tag := "question",
      message := acknowledgmentText nd ++ questionText (missing2.headD ""),
      asking_for := some (missing2.headD ""),
      data_collected := some collected1,
      missing_fields := some missing2,
      session_complete := false }

/-- The session store: session token → session state. -/
abbrev Sessions := List (String × SessionData)

/-- `update_session`: store the new state under an existing token. -/
def sessionsUpdate (sessions : Sessions) (session_id : String) (sd : SessionData) : Sessions :=
  sessions.map (fun p => if p.1 = session_id then (session_id, sd) else p)

/-- `ConversationalAgent.continue_conversation`
(src/conversational_agent.py:254-294): look the session up (unknown
tokens get a terminal error response and no state change), append the
user turn to the history, extract, generate the response, store the
response's collected/missing fields, append the agent response to the
history, and return the response together with the updated store. -/
def continue_conversation (sessions : Sessions) (session_id user_input : String)
    (extracted_info : ExtractedInfo) (post : HttpResult) (t₁ t₂ : ℚ) :
    AgentResponse × Sessions :=
  match sessions.lookup session_id with
  | none =>
      ({ tag := "error",
         message := "Session not found. Please start a new conversation.",
         session_complete := true }, sessions)
  | some sd =>
      let historyWithUser := sd.conversation_history ++ [⟨"user", user_input, t₁⟩]
      let response := generate_response { sd with conversation_history := historyWithUser }
          extracted_info post
      let sd₂ : SessionData :=
        { collected_data := (response.data_collected).getD [],
          missing_fields := (response.missing_fields).getD [],
          conversation_history := historyWithUser ++ [⟨"agent", response.message, t₂⟩],
          current_step := sd.current_step }
      ({ response with session_id := some session_id },
       sessionsUpdate sessions session_id sd₂)

/-! Lookup lemmas for the dict operations. -/

/-- Looking a key up after a single in-place assignment: the assigned key
now maps to the new value (when present at all), every other key is
untouched. -/
theorem lookup_map_set {β : Type} (m : List (String × β)) (k' : String) (v : β) (k : String) :
    (m.map (fun p => if p.1 = k' then (k', v) else p)).lookup k =
      if k = k' then (m.lookup k').map (fun _ => v) else m.lookup k := by
  induction m with
  | nil => simp
  | cons a t ih =>
      obtain ⟨a1, a2⟩ := a
      simp only [List.map_cons]
      by_cases h1 : a1 = k'
      · subst h1
        rw [if_pos rfl]
        by_cases h2 : k = a1
        · subst h2
          simp [List.lookup_cons_self]
        · rw [List.lookup_cons, List.lookup_cons]
          simp [List.lookup_cons, beq_false_of_ne h2, h2, ih]
      · rw [if_neg h1]
        by_cases h2 : k = a1
        · subst h2
          have h3 : ¬ k = k' := h1
          simp [List.lookup_cons_self, h3]
        · rw [List.lookup_cons, List.lookup_cons]
          simp only [beq_false_of_ne h2, ih]
          by_cases h3 : k = k'
          · subst h3
            simp [List.lookup_cons, beq_false_of_ne (fun hh : k = a1 => h1 hh.symm)]
          · simp [List.lookup_cons, beq_false_of_ne h2, h3]

/-- The membership test `dictInsert` performs agrees with lookup. -/
theorem any_key_eq_lookup_isSome {β : Type} (m : List (String × β)) (k : String) :
    (m.any (fun p => decide (p.1 = k))) = (m.lookup k).isSome := by
  induction m with
  | nil => rfl
  | cons a t ih =>
      obtain ⟨a1, a2⟩ := a
      by_cases h : k = a1
      · subst h
        simp [List.lookup_cons_self]
      · simp [List.lookup_cons, beq_false_of_ne h,
          decide_eq_false (fun hh : a1 = k => h hh.symm), ih]

/-- `dictInsert` assigns exactly one key. -/
theorem lookup_dictInsert (m : Dict) (k' v k : String) :
    (dictInsert m k' v).lookup k = if k = k' then some v else m.lookup k := by
  unfold dictInsert
  simp only [any_key_eq_lookup_isSome]
  by_cases hmem : (m.lookup k').isSome = true
  · rw [if_pos hmem, lookup_map_set]
    by_cases h2 : k = k'
    · subst h2
      obtain ⟨w, hw⟩ := Option.isSome_iff_exists.mp hmem
      simp [hw]
    · simp [h2]
  · rw [if_neg hmem, List.lookup_append]
    simp only [Bool.not_eq_true, Option.not_isSome, Option.isNone_iff_eq_none] at hmem
    by_cases h2 : k = k'
    · subst h2
      simp [hmem, List.lookup_cons_self]
    · simp [List.lookup_cons, beq_false_of_ne h2, h2]

/-- Updating with a dict that does not carry a key leaves that key's
lookup unchanged. -/
theorem lookup_dictUpdate_not_key (news : Dict) (m : Dict) (k : String)
    (h : k ∉ news.map Prod.fst) : (dictUpdate m news).lookup k = m.lookup k := by
  induction news generalizing m with
  | nil => rfl
  | cons a t ih =>
      simp only [List.map_cons, List.mem_cons] at h
      push_neg at h
      show (dictUpdate (dictInsert m a.1 a.2) t).lookup k = _
      rw [ih _ h.2, lookup_dictInsert, if_neg h.1]

/-- `dict.update` semantics on lookups, for an update dict with unique
keys (as Python dicts have): the update's value wins, otherwise the
original binding remains. -/
theorem lookup_dictUpdate (news : Dict) (hnd : (news.map Prod.fst).Nodup)
    (m : Dict) (k : String) :
    (dictUpdate m news).lookup k = (news.lookup k).or (m.lookup k) := by
  induction news generalizing m with
  | nil => simp [dictUpdate]
  | cons a t ih =>
      obtain ⟨a1, a2⟩ := a
      simp only [List.map_cons, List.nodup_cons] at hnd
      show (dictUpdate (dictInsert m a1 a2) t).lookup k = _
      by_cases h : k = a1
      · subst h
        rw [lookup_dictUpdate_not_key t _ _ hnd.1, lookup_dictInsert, if_pos rfl]
        simp [List.lookup_cons_self]
      · rw [ih hnd.2, lookup_dictInsert, if_neg h]
        simp [List.lookup_cons, beq_false_of_ne h]

/-- Filtering by a predicate on the key alone keeps or removes all of a
key's entries at once. -/
theorem lookup_filter_key {β : Type} (l : List (String × β)) (pred : String → Bool) (k : String) :
    (l.filter (fun p => pred p.1)).lookup k = if pred k then l.lookup k else none := by
  induction l with
  | nil => simp
  | cons a t ih =>
      obtain ⟨a1, a2⟩ := a
      by_cases hp : pred a1 = true
      · by_cases hk : k = a1
        · subst hk
          simp [List.filter_cons, hp, List.lookup_cons_self]
        · simp [List.filter_cons, hp, List.lookup_cons, beq_false_of_ne hk, ih]
      · by_cases hk : k = a1
        · subst hk
          simp [List.filter_cons, hp, ih]
        · simp [List.filter_cons, hp, List.lookup_cons, beq_false_of_ne hk, ih]

/-- `sessionsUpdate` on a stored token replaces that session's state. -/
theorem lookup_sessionsUpdate (sessions : Sessions) (sid : String) (sd₀ sd : SessionData)
    (h : sessions.lookup sid = some sd₀) :
    (sessionsUpdate sessions sid sd).lookup sid = some sd := by
  unfold sessionsUpdate
  rw [lookup_map_set, if_pos rfl, h]
  rfl

/-- A key no entry carries looks up to `none`. -/
theorem lookup_eq_none_of_not_key {β : Type} (m : List (String × β)) (k : String)
    (h : k ∉ m.map Prod.fst) : m.lookup k = none := by
  rw [List.lookup_eq_none_iff]
  intro p hp
  simp only [bne_iff_ne, ne_eq]
  intro hh
  exact h (List.mem_map.mpr ⟨p, hp, hh.symm⟩)

/-- Both branches of `generate_response` attach the post-merge collected
data. -/
theorem generate_response_data_collected (sd : SessionData) (ex : ExtractedInfo)
    (post : HttpResult) :
    (generate_response sd ex post).data_collected =
      some (dictUpdate sd.collected_data (newData ex.extracted_fields ex.confidence)) := by
  unfold generate_response
  by_cases h : ((removeMerged sd.missing_fields
        (newData ex.extracted_fields ex.confidence)).filter
      (keepInMissing (dictUpdate sd.collected_data
        (newData ex.extracted_fields ex.confidence)))).isEmpty = true
  · simp [h]
  · simp [h]

/-- The outcome always records the payload it was given. -/
theorem send_webhook_carries_payload {α : Type} (post : HttpResult) (d : α) :
    (send_webhook post d).sent_data = d := by
  cases post <;> rfl

/-- C3 counterexample: a field outside the schema (`favorite_color`)
extracted with confidence 0.9 > 0.7 is nevertheless not merged — it is
absent from `collected_data` after the turn, refuting the claim that
every extracted field with confidence above 0.7 appears. -/
theorem high_confidence_nonschema_field_not_merged :
    ((generate_response initialSession
        { extracted_fields := [("favorite_color", "blue")],
          confidence := [("favorite_color", mkRat 9 10)] }
        (.response 200 "ok")).data_collected.getD []).lookup "favorite_color" = none
      ∧ mkRat 9 10 > mkRat 7 10 := by
  constructor
  · rfl
  · decide

/-- C3 (amended): on any turn, an extracted field with reported
confidence ≤ 0.7 (or with no reported confidence) is never merged: it is
kept out of the turn's `new_data` and its `collected_data` binding is
unchanged.  An extracted field *of the schema* whose confidence exceeds
0.7 is merged: its extracted value appears in `collected_data` after the
turn (fields outside the schema are discarded regardless of
confidence). -/
theorem confidence_gate (sd : SessionData) (ex : ExtractedInfo) (post : HttpResult)
    (f : String) :
    (((ex.confidence.lookup f).getD 0 ≤ mkRat 7 10) →
        (newData ex.extracted_fields ex.confidence).lookup f = none
        ∧ ((generate_response sd ex post).data_collected.getD []).lookup f
            = sd.collected_data.lookup f)
    ∧ ((ex.extracted_fields.map Prod.fst).Nodup →
        requiredFieldNames.contains f = true →
        (ex.confidence.lookup f).getD 0 > mkRat 7 10 →
        ∀ v, ex.extracted_fields.lookup f = some v →
        ((generate_response sd ex post).data_collected.getD []).lookup f = some v) := by
  constructor
  · intro h
    have hnd : (newData ex.extracted_fields ex.confidence).lookup f = none := by
      unfold newData
      rw [lookup_filter_key]
      have hg : gatePasses ex.confidence f = false := by
        unfold gatePasses
        simp [decide_eq_false (not_lt.mpr h)]
      simp [hg]
    refine ⟨hnd, ?_⟩
    rw [generate_response_data_collected]
    simp only [Option.getD_some]
    apply lookup_dictUpdate_not_key
    intro hf
    rw [List.lookup_eq_none_iff] at hnd
    obtain ⟨p, hp, hpf⟩ := List.mem_map.mp hf
    have hb := hnd p hp
    rw [hpf] at hb
    simp at hb
  · intro hnodup hcont hconf v hv
    have hsub : List.Sublist ((newData ex.extracted_fields ex.confidence).map Prod.fst)
        (ex.extracted_fields.map Prod.fst) :=
      (List.filter_sublist _).map Prod.fst
    have hndnodup := hnodup.sublist hsub
    rw [generate_response_data_collected]
    simp only [Option.getD_some]
    rw [lookup_dictUpdate _ hndnodup]
    have hl : (newData ex.extracted_fields ex.confidence).lookup f = some v := by
      unfold newData
      rw [lookup_filter_key]
      have hg : gatePasses ex.confidence f = true := by
        unfold gatePasses
        rw [hcont, decide_eq_true hconf]
        rfl
      simp [hg, hv]
    simp [hl]

/-- C3 witness: `adult_name` extracted with confidence 0.9 appears in
`collected_data` with its extracted value after the turn. -/
theorem confidence_gate_witness :
    ((generate_response initialSession
        { extracted_fields := [("adult_name", "John")],
          confidence := [("adult_name", mkRat 9 10)] }
        (.response 200 "ok")).data_collected.getD []).lookup "adult_name" = some "John" :=
  (confidence_gate initialSession
      { extracted_fields := [("adult_name", "John")],
        confidence := [("adult_name", mkRat 9 10)] }
      (.response 200 "ok") "adult_name").2
    (by decide) (by decide) (by decide) "John" rfl

/-- C10: when a turn completes, the payload handed to `send_webhook` is
exactly the post-merge `collected_data` — the raw gated extraction values
merged over the previous turns' values, with no validation pass, no
whitespace stripping, no enum check and no alias normalization — and a
field never collected (such as `child_name` when `signup_type` is
"self") is absent from the payload entirely rather than present as
null. -/
theorem completion_payload_is_raw_collected_data (sd : SessionData) (ex : ExtractedInfo)
    (post : HttpResult)
    (hc : (generate_response sd ex post).session_complete = true) :
    ∃ wh, (generate_response sd ex post).webhook_result = some wh
      ∧ wh.sent_data = dictUpdate sd.collected_data (newData ex.extracted_fields ex.confidence)
      ∧ (generate_response sd ex post).data_collected = some wh.sent_data
      ∧ ∀ f, f ∉ sd.collected_data.map Prod.fst →
          f ∉ (newData ex.extracted_fields ex.confidence).map Prod.fst →
          wh.sent_data.lookup f = none := by
  by_cases hcond : ((removeMerged sd.missing_fields
        (newData ex.extracted_fields ex.confidence)).filter
      (keepInMissing (dictUpdate sd.collected_data
        (newData ex.extracted_fields ex.confidence)))).isEmpty = true
  · refine ⟨send_webhook post
        (dictUpdate sd.collected_data (newData ex.extracted_fields ex.confidence)),
      ?_, ?_, ?_, ?_⟩
    · simp [generate_response, hcond]
    · exact send_webhook_carries_payload _ _
    · rw [generate_response_data_collected, send_webhook_carries_payload]
    · intro f hf1 hf2
      rw [send_webhook_carries_payload, lookup_dictUpdate_not_key _ _ _ hf2]
      exact lookup_eq_none_of_not_key _ _ hf1
  · exfalso
    rw [show (generate_response sd ex post).session_complete = false by
      simp [generate_response, hcond]] at hc
    exact Bool.false_ne_true hc

/-- A session whose three unconditional fields are already collected with
raw (unstripped) values and whose only outstanding field is the
conditional `child_name`. -/
def sessionSelfDone : SessionData :=
  { collected_data := [("adult_name", " John "), ("email_address", "j@x.org"),
                       ("signup_type", "self")],
    conversation_history := [],
    current_step := "greeting",
    missing_fields := ["child_name"] }

/-- C10 witness: the completing turn on that session submits the
collected dict as-is — `adult_name` keeps its padding and `child_name`
has no entry at all. -/
theorem completion_payload_is_raw_collected_data_witness :
    (∃ wh, (generate_response sessionSelfDone {} (.response 200 "ok")).webhook_result = some wh
      ∧ wh.sent_data = dictUpdate sessionSelfDone.collected_data (newData [] [])
      ∧ (generate_response sessionSelfDone {} (.response 200 "ok")).data_collected
          = some wh.sent_data
      ∧ ∀ f, f ∉ sessionSelfDone.collected_data.map Prod.fst →
          f ∉ (newData ([] : List (String × String)) ([] : List (String × ℚ))).map Prod.fst →
          wh.sent_data.lookup f = none)
      ∧ (dictUpdate sessionSelfDone.collected_data (newData [] [])).lookup "adult_name"
          = some " John "
      ∧ (dictUpdate sessionSelfDone.collected_data (newData [] [])).lookup "child_name"
          = none := by
  refine ⟨completion_payload_is_raw_collected_data sessionSelfDone {} (.response 200 "ok")
      (by decide), by decide, by decide⟩

/-- C9 counterexample: a turn addressed to an unknown session token
appends nothing anywhere — the store (whose only session has an empty
history) is returned unchanged along with the error response — so the
claim that the user turn and agent response are appended "including error
turns such as session not found" fails. -/
theorem unknown_session_turn_appends_nothing :
    (continue_conversation [("a", initialSession)] "b" "hello" {} (.response 200 "ok") 0 1).2
        = [("a", initialSession)]
      ∧ (continue_conversation [("a", initialSession)] "b" "hello" {}
          (.response 200 "ok") 0 1).1.tag = "error"
      ∧ initialSession.conversation_history = [] := by
  refine ⟨rfl, rfl, rfl⟩

/-- C9 (amended): a turn on a session that exists appends the user's
turn and then the agent's response to that session's stored
`conversation_history` before the response is returned, on every outcome
(question or completion); a turn on an unknown token returns the error
response and leaves the whole store unchanged, appending nothing. -/
theorem history_appends_on_known_session (sessions : Sessions) (sid user_input : String)
    (ex : ExtractedInfo) (post : HttpResult) (t₁ t₂ : ℚ) :
    (∀ sd, sessions.lookup sid = some sd →
        ∃ sd', (continue_conversation sessions sid user_input ex post t₁ t₂).2.lookup sid
            = some sd'
          ∧ sd'.conversation_history = sd.conversation_history
              ++ [⟨"user", user_input, t₁⟩,
                  ⟨"agent", (continue_conversation sessions sid user_input ex post t₁ t₂).1.message,
                   t₂⟩])
    ∧ (sessions.lookup sid = none →
        (continue_conversation sessions sid user_input ex post t₁ t₂).2 = sessions
          ∧ (continue_conversation sessions sid user_input ex post t₁ t₂).1.tag = "error") := by
  constructor
  · intro sd h
    simp only [continue_conversation, h]
    refine ⟨_, lookup_sessionsUpdate sessions sid sd _ h, ?_⟩
    simp
  · intro h
    simp [continue_conversation, h]

/-- C9 witness: a question turn on the store's only session appends the
user message and the agent's question to its history. -/
theorem history_appends_on_known_session_witness :
    ∃ sd', (continue_conversation [("a", initialSession)] "a" "hi" {}
        (.response 200 "ok") 0 1).2.lookup "a" = some sd'
      ∧ sd'.conversation_history = initialSession.conversation_history
          ++ [⟨"user", "hi", 0⟩,
              ⟨"agent", (continue_conversation [("a", initialSession)] "a" "hi" {}
                  (.response 200 "ok") 0 1).1.message, 1⟩] :=
  (history_appends_on_known_session [("a", initialSession)] "a" "hi" {}
      (.response 200 "ok") 0 1).1 initialSession rfl

/-- A session that has collected the name and email and is awaiting the
signup type (the state after answering the first two questions). -/
def sessionAwaitingSignup : SessionData :=
  { collected_data := [("adult_name", "John Smith"), ("email_address", "j@x.org")],
    conversation_history := [],
    current_step := "greeting",
    missing_fields := ["signup_type", "child_name"] }

/-- The turn that resolves the last missing field of
`sessionAwaitingSignup`: the user answers "myself" and `signup_type` is
extracted as "self" with confidence 0.9. -/
def turnCompleting : AgentResponse × Sessions :=
  continue_conversation [("s", sessionAwaitingSignup)] "s" "myself"
    { extracted_fields := [("signup_type", "self")],
      confidence := [("signup_type", mkRat 9 10)] }
    (.response 200 "ok") 1 2

/-- A further turn sent to the same session token after the completing
turn, carrying no extractable information. -/
def turnAfterCompletion : AgentResponse × Sessions :=
  continue_conversation turnCompleting.2 "s" "thanks" {} (.response 200 "ok") 3 4

/-- C1 at the failing input: the turn that resolves the last missing
field does submit synchronously and reports `session_complete = true`,
but the stored session keeps `current_step = "greeting"` and remains in
the store with `missing_fields = []`; the next turn on the same token is
accepted, immediately re-enters the completion branch, and attempts the
webhook again — so turns after completion are not rejected and submission
is not once-per-session. -/
theorem completed_session_accepts_further_turns_and_resubmits :
    turnCompleting.1.session_complete = true
      ∧ turnCompleting.1.webhook_result.isSome = true
      ∧ (turnCompleting.2.lookup "s").map SessionData.current_step = some "greeting"
      ∧ (turnCompleting.2.lookup "s").map SessionData.missing_fields = some []
      ∧ turnAfterCompletion.1.tag = "completion"
      ∧ turnAfterCompletion.1.session_complete = true
      ∧ turnAfterCompletion.1.webhook_result.isSome = true :=
  ⟨rfl, rfl, rfl, rfl, rfl, rfl, rfl⟩

end FeeWaiver
